import Mathlib

/-!
Shallow embedding of the grade-aggregation core of `streamlit_app.py`
(school results dashboard).  Pandas DataFrames are modelled as lists of
rows; the `Grade` column after `process_data` is an optional categorical
code (`none` models NaN for a grade outside the fixed enumeration).
-/

namespace SchoolDash

/-- `GRADE_ORDER = ['A*', 'A', 'B', 'C', 'D', 'E', 'U']` (line 31). -/
def GRADE_ORDER : List String := ["A*", "A", "B", "C", "D", "E", "U"]

/-- A raw input row, as parsed from CSV or built by `load_sample_data`:
columns `Division`, `Class`, `Grade`, `Count`.  `Count` is a natural
number per the data model (non-negative integer). -/
structure RawRow where
  division : String
  class_name : String
  grade : String
  count : Nat
deriving DecidableEq, Repr

/-- A processed row, after `process_data` turned the `Grade` column into
an ordered categorical: `grade` is the categorical code (position in
`GRADE_ORDER`), `none` modelling NaN for an unknown grade. -/
structure Row where
  division : String
  class_name : String
  grade : Option Nat
  count : Nat
deriving DecidableEq, Repr

/-- The categorical code of a grade string:
`pd.Categorical(df['Grade'], categories=GRADE_ORDER)` maps each value to
its index in `GRADE_ORDER`, and to NaN (`none`) when absent (line 60). -/
def gradeCode (g : String) : Option Nat := GRADE_ORDER.indexOf? g

/-- Tag one raw row with its grade code (the per-row effect of
`process_data`'s categorical conversion). -/
def tagRow (r : RawRow) : Row :=
  ⟨r.division, r.class_name, gradeCode r.grade, r.count⟩

/-- Sort key used by `df.sort_values('Grade')`: categorical code order,
NaN last (`na_position='last'`), modelled by key 7 for `none`. -/
def sortKey (r : Row) : Nat := r.grade.getD 7

/-- Insert an element into a list sorted by a numeric key. -/
def insertByKey (key : α → Nat) (r : α) : List α → List α
  | [] => [r]
  | x :: xs => if key r < key x then r :: x :: xs else x :: insertByKey key r xs

/-- Insertion sort by a numeric key (models `sort_values`: the claims
only use the result up to permutation, so stability is irrelevant). -/
def sortByKey (key : α → Nat) : List α → List α
  | [] => []
  | x :: xs => insertByKey key x (sortByKey key xs)

/-- Sort rows by grade code (`df.sort_values('Grade')`, line 61). -/
def sortRows : List Row → List Row :=
  sortByKey sortKey

/-- `process_data(df)` (lines 57-62): convert `Grade` to the ordered
categorical over `GRADE_ORDER` and sort by it. -/
def processData (t : List RawRow) : List Row :=
  sortRows (t.map tagRow)

/-- `df[df['Division'] == d]` (lines 150, 153, 165, 170, 179, 202, 244). -/
def filterDivision (d : String) (t : List Row) : List Row :=
  t.filter (fun r => r.division == d)

/-- `df[df['Class'] == c]` (lines 230, 272). -/
def filterClass (c : String) (t : List Row) : List Row :=
  t.filter (fun r => r.class_name == c)

/-- The summed count for one grade code `g`:
the `g`-group of `df.groupby('Grade')['Count'].sum()`.  Rows whose grade
is NaN (`none`) belong to no group and are dropped, exactly as pandas
`groupby` drops NaN keys. -/
def distEntry (t : List Row) (g : Nat) : Nat :=
  ((t.filter (fun r => r.grade == some g)).map Row.count).sum

/-- `df.groupby('Grade')['Count'].sum().reindex(GRADE_ORDER, fill_value=0)`
(line 66): the 7-entry series aligned to `GRADE_ORDER`, 0 for a grade
with no rows. -/
def gradeDist (t : List Row) : List Nat :=
  (List.range 7).map (distEntry t)

/-- One cell of `create_stacked_comparison` (lines 94-98): the summed
count of rows with the given class and grade
(`df[(df['Class'] == class_name) & (df['Grade'] == grade)]['Count'].sum()`,
with the explicit 0 for an empty selection). -/
def matrixEntry (t : List Row) (c : String) (g : Nat) : Nat :=
  ((t.filter (fun r => r.class_name == c && r.grade == some g)).map Row.count).sum

/-- `create_stacked_comparison(df, classes)` (lines 90-117): for each
grade in fixed order, the per-class sums aligned to `classes`. -/
def comparisonMatrix (t : List Row) (classes : List String) : List (List Nat) :=
  (List.range 7).map (fun g => classes.map (fun c => matrixEntry t c g))

/-- `df['Count'].sum()` (line 147). -/
def totalStudents (t : List Row) : Nat :=
  (t.map Row.count).sum

/-- `df[df['Grade'] != 'U']['Count'].sum()` (line 156): the pass-rate
numerator.  On the processed frame, `'U'` has code 6; a NaN grade
compares unequal to `'U'`, so `none` rows are included. -/
def passCount (t : List Row) : Nat :=
  ((t.filter (fun r => r.grade != some 6)).map Row.count).sum

/-- Pass rate in the Overview view (line 156): guarded,
`(num / total) * 100 if total > 0 else 0`. -/
def passRateOverview (t : List Row) : ℚ :=
  if 0 < totalStudents t then (passCount t : ℚ) / (totalStudents t : ℚ) * 100 else 0

/-- Pass rate in the Primary/Secondary School views (lines 210, 252):
unguarded `(num / total) * 100`; when the filtered total is 0 the numpy
division 0/0 yields NaN, modelled by `none`. -/
def passRateDivision (d : String) (t : List Row) : Option ℚ :=
  let p := filterDivision d t
  if totalStudents p = 0 then none
  else some ((passCount p : ℚ) / (totalStudents p : ℚ) * 100)

/-- `load_sample_data()` (lines 42-55): the fixed demonstration table. -/
def loadSampleData : List RawRow :=
  let divisions := List.replicate 30 "Primary" ++ List.replicate 30 "Secondary"
  let classes :=
    List.replicate 10 "Class 1" ++ List.replicate 10 "Class 2" ++
    List.replicate 10 "Class 3" ++ List.replicate 10 "Class 4" ++
    List.replicate 10 "Class 5" ++ List.replicate 10 "Class 6"
  let grades :=
    (List.replicate 8 GRADE_ORDER).flatten ++ ["A*", "A", "B", "C"]
  let counts : List Nat :=
    [5, 8, 12, 10, 8, 5, 2, 4, 6, 10, 8, 6, 4, 3, 6, 9, 11, 9, 7, 4,
     3, 7, 10, 12, 8, 5, 3, 8, 12, 15, 10, 7, 5, 4, 10, 14, 16, 12, 8,
     6, 4, 9, 13, 14, 11, 7, 5, 5, 11, 15, 13, 9, 6, 4, 8, 12, 14, 11, 8, 5]
  (((divisions.zip classes).zip grades).zip counts).map
    (fun x => ⟨x.1.1.1, x.1.1.2, x.1.2, x.2⟩)

/-- `create_distribution_chart(df, title, chart_type)` (lines 64-88) seen
as an operation on the frame it receives: it derives the grade series of
line 66 and executes no statement that assigns into `df`, so the frame
available after the call is the frame that was passed in.  The pair is
(chart series, frame after the call). -/
def createDistributionChart (df : List Row) : List Nat × List Row :=
  (gradeDist df, df)

/-- `create_stacked_comparison(df, classes)` (lines 90-117) seen as an
operation on the frame: it derives the per-grade per-class sums and
assigns nothing into `df`.  The pair is (matrix, frame after the call). -/
def createStackedComparison (df : List Row) (classes : List String) :
    List (List Nat) × List Row :=
  (comparisonMatrix df classes, df)

/-- A parsed CSV upload: header names and string cell rows, the shape
`pd.read_csv` hands to `process_data` (lines 131-133).  `read_csv` itself
imposes no column requirements. -/
structure CSVFile where
  header : List String
  rows : List (List String)
deriving DecidableEq, Repr

/-- The upload path (lines 131-133): `pd.read_csv` then `process_data`.
`process_data` touches only the `Grade` column: `df['Grade']` raises
`KeyError` when that column is absent; otherwise every row's grade cell
is replaced by its categorical code (`none` for a value outside
`GRADE_ORDER`) and the rows are sorted by it.  No other column is read,
so `Count` is neither required nor validated here.  The result pairs each
original row with its grade code. -/
def uploadPipeline (f : CSVFile) : Except String (List (List String × Option Nat)) :=
  match f.header.indexOf? "Grade" with
  | none => .error "KeyError: Grade"
  | some i =>
      .ok (sortByKey (fun p => p.2.getD 7)
        (f.rows.map (fun row => (row, gradeCode (row.getD i "")))))

/-- Concrete upload whose header lacks the `Count` column. -/
def fileNoCount : CSVFile :=
  ⟨["Division", "Class", "Grade"], [["Primary", "Class 1", "A"]]⟩

/-- Concrete upload carrying the out-of-enumeration grade `F`. -/
def fileGradeF : CSVFile :=
  ⟨["Division", "Class", "Grade", "Count"], [["Primary", "Class 1", "F", "5"]]⟩

/-- Concrete upload whose header lacks the `Grade` column. -/
def fileNoGrade : CSVFile :=
  ⟨["Division", "Class", "Count"], [["Primary", "Class 1", "5"]]⟩

/-- The duplicate-row table of the concrete scenario in the spec. -/
def dupRaw : List RawRow :=
  [⟨"Primary", "Class1", "A", 5⟩, ⟨"Primary", "Class1", "A", 3⟩,
   ⟨"Primary", "Class1", "B", 2⟩]

/-- A small two-division table used to instantiate universally
quantified theorems at a concrete input. -/
def tinyRaw : List RawRow :=
  [⟨"Primary", "Class 1", "A", 5⟩, ⟨"Primary", "Class 1", "U", 1⟩,
   ⟨"Secondary", "Class 4", "B", 2⟩]

/-- The processed form of `tinyRaw`. -/
def tinyRows : List Row := processData tinyRaw

/-- A permutation of `tinyRaw` (last row moved to the front). -/
def tinyRawPerm : List RawRow :=
  [⟨"Secondary", "Class 4", "B", 2⟩, ⟨"Primary", "Class 1", "A", 5⟩,
   ⟨"Primary", "Class 1", "U", 1⟩]

/-- A raw row whose grade `F` lies outside the fixed enumeration. -/
def rowGradeF : RawRow := ⟨"Primary", "Class 1", "F", 3⟩

/-! ### Helper lemmas -/

theorem insertByKey_perm (key : α → Nat) (r : α) (l : List α) :
    (insertByKey key r l).Perm (r :: l) := by
  induction l with
  | nil => simp [insertByKey]
  | cons x xs ih =>
      simp only [insertByKey]
      split
      · exact List.Perm.refl _
      · exact (ih.cons x).trans (List.Perm.swap r x xs)

theorem sortByKey_perm (key : α → Nat) (l : List α) :
    (sortByKey key l).Perm l := by
  induction l with
  | nil => simp [sortByKey]
  | cons x xs ih =>
      exact (insertByKey_perm key x (sortByKey key xs)).trans (ih.cons x)

theorem processData_perm (t : List RawRow) :
    (processData t).Perm (t.map tagRow) :=
  sortByKey_perm sortKey (t.map tagRow)

theorem distEntry_perm {u v : List Row} (h : u.Perm v) (g : Nat) :
    distEntry u g = distEntry v g :=
  ((h.filter _).map Row.count).sum_eq

theorem gradeDist_perm {u v : List Row} (h : u.Perm v) :
    gradeDist u = gradeDist v :=
  List.map_congr_left (fun g _ => distEntry_perm h g)

theorem matrixEntry_perm {u v : List Row} (h : u.Perm v) (c : String) (g : Nat) :
    matrixEntry u c g = matrixEntry v c g :=
  ((h.filter _).map Row.count).sum_eq

theorem comparisonMatrix_perm {u v : List Row} (h : u.Perm v) (classes : List String) :
    comparisonMatrix u classes = comparisonMatrix v classes :=
  List.map_congr_left (fun g _ =>
    List.map_congr_left (fun c _ => matrixEntry_perm h c g))

theorem totalStudents_perm {u v : List Row} (h : u.Perm v) :
    totalStudents u = totalStudents v :=
  (h.map Row.count).sum_eq

theorem passCount_perm {u v : List Row} (h : u.Perm v) :
    passCount u = passCount v :=
  ((h.filter _).map Row.count).sum_eq

theorem distEntry_cons_none {r : Row} (h : r.grade = none) (u : List Row) (g : Nat) :
    distEntry (r :: u) g = distEntry u g := by
  simp [distEntry, List.filter_cons, h]

theorem matrixEntry_cons_none {r : Row} (h : r.grade = none) (u : List Row)
    (c : String) (g : Nat) : matrixEntry (r :: u) c g = matrixEntry u c g := by
  simp [matrixEntry, List.filter_cons, h]

theorem totalStudents_cons (r : Row) (u : List Row) :
    totalStudents (r :: u) = r.count + totalStudents u := by
  simp [totalStudents]

theorem passCount_cons_none {r : Row} (h : r.grade = none) (u : List Row) :
    passCount (r :: u) = r.count + passCount u := by
  simp [passCount, List.filter_cons, h]

theorem distEntry_append (u v : List Row) (g : Nat) :
    distEntry (u ++ v) g = distEntry u g + distEntry v g := by
  simp [distEntry, List.filter_append]

theorem getD_map_range {n g : Nat} (hg : g < n) (f : Nat → β) (d : β) :
    (((List.range n).map f).getD g d) = f g := by
  rw [List.getD_eq_getElem?_getD, List.getElem?_map, List.getElem?_range hg]
  rfl

theorem getD_map_of_lt {l : List α} {i : Nat} (hi : i < l.length)
    (f : α → β) (d : β) (d' : α) :
    ((l.map f).getD i d) = f (l.getD i d') := by
  rw [List.getD_eq_getElem?_getD, List.getElem?_map,
    List.getElem?_eq_getElem hi, List.getD_eq_getElem?_getD,
    List.getElem?_eq_getElem hi]
  rfl

theorem matrixEntry_eq_distEntry_filterClass (t : List Row) (c : String) (g : Nat) :
    matrixEntry t c g = distEntry (filterClass c t) g := by
  simp only [matrixEntry, distEntry, filterClass, List.filter_filter]
  have h : List.filter (fun r : Row => r.class_name == c && r.grade == some g) t
      = List.filter (fun a : Row => a.grade == some g && a.class_name == c) t := by
    apply List.filter_congr
    intro r _
    rw [Bool.and_comm]
  rw [h]

theorem division_partition_perm (t : List Row)
    (h : ∀ r ∈ t, r.division = "Primary" ∨ r.division = "Secondary") :
    (filterDivision "Primary" t ++ filterDivision "Secondary" t).Perm t := by
  have h2 : filterDivision "Secondary" t
      = t.filter (fun r => !(r.division == "Primary")) := by
    apply List.filter_congr
    intro r hr
    rcases h r hr with h' | h' <;> simp [h']
  rw [h2, filterDivision]
  exact List.filter_append_perm _ t

theorem distEntry_eq_zero {t : List Row} {g : Nat}
    (h : ∀ r ∈ t, r.grade ≠ some g) : distEntry t g = 0 := by
  have h2 : t.filter (fun r => r.grade == some g) = [] := by
    simp only [List.filter_eq_nil_iff]
    intro r hr
    simpa using h r hr
  simp [distEntry, h2]

theorem gradeCode_isSome {g : String} (h : g ∈ GRADE_ORDER) :
    (gradeCode g).isSome = true := by
  simp only [GRADE_ORDER, List.mem_cons, List.not_mem_nil, or_false] at h
  rcases h with rfl | rfl | rfl | rfl | rfl | rfl | rfl <;> decide

theorem gradeDist_cons_none {r : Row} (h : r.grade = none) (u : List Row) :
    gradeDist (r :: u) = gradeDist u :=
  List.map_congr_left (fun g _ => distEntry_cons_none h u g)

theorem comparisonMatrix_cons_none {r : Row} (h : r.grade = none)
    (u : List Row) (classes : List String) :
    comparisonMatrix (r :: u) classes = comparisonMatrix u classes :=
  List.map_congr_left (fun g _ =>
    List.map_congr_left (fun c _ => matrixEntry_cons_none h u c g))

theorem processData_cons_perm (x : RawRow) (t : List RawRow) :
    (processData (x :: t)).Perm (tagRow x :: processData t) := by
  have h1 : (processData (x :: t)).Perm (tagRow x :: t.map tagRow) := by
    simpa [processData, sortRows] using
      sortByKey_perm sortKey (tagRow x :: t.map tagRow)
  exact h1.trans ((processData_perm t).symm.cons (tagRow x))

theorem distEntry_division_split (t : List Row)
    (h : ∀ r ∈ t, r.division = "Primary" ∨ r.division = "Secondary") (g : Nat) :
    distEntry (filterDivision "Primary" t) g + distEntry (filterDivision "Secondary" t) g
      = distEntry t g := by
  rw [← distEntry_append]
  exact distEntry_perm (division_partition_perm t h) g

theorem gradeCode_isSome_iff (g : String) :
    (gradeCode g).isSome = true ↔ g ∈ GRADE_ORDER := by
  rw [gradeCode, Option.isSome_iff_ne_none, ne_eq, List.indexOf?_eq_none_iff]
  constructor
  · intro h
    by_contra hg
    exact h (fun x hx hbeq => hg ((beq_iff_eq.mp hbeq) ▸ hx))
  · intro hg h
    exact h g hg (beq_iff_eq.mpr rfl)

theorem indexOf?_mem_iff (l : List String) (a : String) :
    (l.indexOf? a).isSome = true ↔ a ∈ l := by
  rw [Option.isSome_iff_ne_none, ne_eq, List.indexOf?_eq_none_iff]
  constructor
  · intro h
    by_contra hm
    exact h (fun x hx hbeq => hm ((beq_iff_eq.mp hbeq) ▸ hx))
  · intro hm h
    exact h a hm (beq_iff_eq.mpr rfl)

theorem uploadPipeline_none {f : CSVFile} (h : f.header.indexOf? "Grade" = none) :
    uploadPipeline f = .error "KeyError: Grade" := by
  unfold uploadPipeline
  rw [h]

theorem uploadPipeline_some {f : CSVFile} {i : Nat}
    (h : f.header.indexOf? "Grade" = some i) :
    uploadPipeline f = .ok (sortByKey (fun p => p.2.getD 7)
      (f.rows.map (fun row => (row, gradeCode (row.getD i ""))))) := by
  unfold uploadPipeline
  rw [h]

theorem uploadPipeline_isOk_iff (f : CSVFile) :
    (uploadPipeline f).isOk = true ↔ "Grade" ∈ f.header := by
  rw [← indexOf?_mem_iff f.header "Grade"]
  cases hidx : f.header.indexOf? "Grade" with
  | none =>
      rw [uploadPipeline_none hidx]
      simp [Except.isOk, Except.toBool]
  | some i =>
      rw [uploadPipeline_some hidx]
      simp [Except.isOk, Except.toBool]

/-! ### Claim theorems -/

/-- C1: for every table and every selection (whole table, a division, or
a single class), the distribution is a sequence of exactly 7 non-negative
entries, entry `g` is the summed count for the `g`-th grade of the fixed
order, and a grade absent from the selection gets the entry 0. -/
theorem C1_distribution_shape :
    ∀ (t : List Row) (d c : String),
      (gradeDist t).length = 7 ∧
      (gradeDist (filterDivision d t)).length = 7 ∧
      (gradeDist (filterClass c t)).length = 7 ∧
      (∀ x ∈ gradeDist t, 0 ≤ x) ∧
      (∀ g, g < 7 → (gradeDist t).getD g 0 = distEntry t g) ∧
      (∀ g, g < 7 → (∀ r ∈ t, r.grade ≠ some g) → (gradeDist t).getD g 0 = 0) := by
  intro t d c
  refine ⟨by simp [gradeDist], by simp [gradeDist], by simp [gradeDist],
    fun x _ => Nat.zero_le x, fun g hg => getD_map_range hg _ _, ?_⟩
  intro g hg h
  show ((List.range 7).map (distEntry t)).getD g 0 = 0
  rw [getD_map_range hg]
  exact distEntry_eq_zero h

/-- Witness for C1 at the concrete processed table `tinyRows`, whose
grade `C` (code 3) is absent. -/
theorem C1_distribution_shape_witness :
    (gradeDist tinyRows).length = 7 ∧ (gradeDist tinyRows).getD 3 0 = 0 :=
  ⟨(C1_distribution_shape tinyRows "Primary" "Class 1").1,
   (C1_distribution_shape tinyRows "Primary" "Class 1").2.2.2.2.2 3 (by decide)
     (by decide)⟩

/-- C2: the comparison-matrix cell for grade `g` and class index `i` is
exactly entry `g` of the single-class distribution of `classes[i]`: the
matrix is a reshaping of per-class distributions. -/
theorem C2_matrix_reshapes_distribution :
    ∀ (t : List Row) (classes : List String) (g i : Nat),
      g < 7 → i < classes.length →
      ((comparisonMatrix t classes).getD g []).getD i 0
        = (gradeDist (filterClass (classes.getD i "") t)).getD g 0 := by
  intro t classes g i hg hi
  simp only [comparisonMatrix, gradeDist]
  rw [getD_map_range hg, getD_map_range hg, getD_map_of_lt hi _ _ ""]
  exact matrixEntry_eq_distEntry_filterClass t _ g

/-- Witness for C2 at `tinyRows` with the class list `["Class 1"]`,
grade index 1 and class index 0. -/
theorem C2_matrix_reshapes_distribution_witness :
    1 < 7 ∧ 0 < (["Class 1"] : List String).length ∧
    ((comparisonMatrix tinyRows ["Class 1"]).getD 1 []).getD 0 0
      = (gradeDist (filterClass ((["Class 1"] : List String).getD 0 "") tinyRows)).getD 1 0 :=
  ⟨by decide, by decide,
   C2_matrix_reshapes_distribution tinyRows ["Class 1"] 1 0 (by decide) (by decide)⟩

/-- C3: when every row's division is `Primary` or `Secondary`, the
entry-wise sum of the two division distributions is the distribution of
the whole table: the division filters partition the table. -/
theorem C3_division_partition_sum :
    ∀ t : List Row, (∀ r ∈ t, r.division = "Primary" ∨ r.division = "Secondary") →
      List.zipWith (· + ·) (gradeDist (filterDivision "Primary" t))
        (gradeDist (filterDivision "Secondary" t)) = gradeDist t := by
  intro t h
  simp only [gradeDist]
  rw [List.zipWith_map, List.zipWith_same]
  exact List.map_congr_left (fun g _ => distEntry_division_split t h g)

/-- Witness for C3 at the concrete processed table `tinyRows`. -/
theorem C3_division_partition_sum_witness :
    (∀ r ∈ tinyRows, r.division = "Primary" ∨ r.division = "Secondary") ∧
    List.zipWith (· + ·) (gradeDist (filterDivision "Primary" tinyRows))
      (gradeDist (filterDivision "Secondary" tinyRows)) = gradeDist tinyRows :=
  ⟨by decide, C3_division_partition_sum tinyRows (by decide)⟩

/-- C4 counterexample: the upload path does not reject these inputs.  A
file whose header lacks `Count` loads successfully (no `FormatError`),
and a file with the out-of-enumeration grade `F` also loads successfully
(no `ValueError`), its grade coerced to the missing value. -/
theorem C4_loader_accepts_invalid :
    (uploadPipeline fileNoCount).isOk = true ∧
    uploadPipeline fileGradeF
      = Except.ok [(["Primary", "Class 1", "F", "5"], none)] := by
  constructor
  · rfl
  · rfl

/-- C4 amended: the upload path succeeds exactly when a `Grade` column is
present (a missing `Grade` column is the only load-time error, a
`KeyError`, so a missing `Count` column is not rejected), and every
loaded row's grade tag is the grade code of its `Grade` cell, present
exactly when that cell is in the fixed enumeration — an out-of-range
grade is coerced to missing, never a `ValueError`. -/
theorem C4_upload_accepts_and_coerces :
    ∀ f : CSVFile,
      ((uploadPipeline f).isOk = true ↔ "Grade" ∈ f.header) ∧
      (∀ i, f.header.indexOf? "Grade" = some i →
        ∀ p ∈ (uploadPipeline f).toOption.getD [],
          p.2 = gradeCode (p.1.getD i "") ∧
          (p.1.getD i "" ∈ GRADE_ORDER ↔ p.2.isSome = true)) := by
  intro f
  refine ⟨uploadPipeline_isOk_iff f, ?_⟩
  intro i hi p hp
  rw [uploadPipeline_some hi] at hp
  simp only [Except.toOption, Option.getD] at hp
  have hp2 : p ∈ f.rows.map (fun row => (row, gradeCode (row.getD i ""))) :=
    (sortByKey_perm _ _).mem_iff.mp hp
  rcases List.mem_map.mp hp2 with ⟨row, _, hpr⟩
  rw [← hpr]
  exact ⟨rfl, (gradeCode_isSome_iff _).symm⟩

/-- Witness for the amended C4: the concrete upload missing the `Count`
column loads successfully. -/
theorem C4_upload_accepts_and_coerces_witness :
    (uploadPipeline fileNoCount).isOk = true :=
  (C4_upload_accepts_and_coerces fileNoCount).1.mpr (by decide)

/-- C5: the empty table yields the all-zero 7-entry distribution; the
Overview pass rate (guarded) is 0; but the Primary and Secondary view
pass rates (unguarded `0/0`) are NaN (`none`), not 0%. -/
theorem C5_empty_table_pass_rate :
    gradeDist (processData []) = [0, 0, 0, 0, 0, 0, 0] ∧
    passRateOverview (processData []) = 0 ∧
    passRateDivision "Primary" (processData []) = none ∧
    passRateDivision "Secondary" (processData []) = none := by
  refine ⟨by decide, ?_, by decide, by decide⟩
  rfl

/-- C6: duplicate rows for the same (division, class, grade) are merged
by summation: the concrete duplicate table's distribution for `Class1`
is `[A*:0, A:8, B:2, C:0, D:0, E:0, U:0]`. -/
theorem C6_duplicate_rows_summed :
    gradeDist (filterClass "Class1" (processData dupRaw)) = [0, 8, 2, 0, 0, 0, 0] := by
  decide

/-- C7: permuting the rows of the source table changes neither any
distribution (whole, division-filtered, class-filtered) nor the
comparison matrix. -/
theorem C7_row_order_irrelevant :
    ∀ (t₁ t₂ : List RawRow) (classes : List String) (d c : String),
      t₁.Perm t₂ →
      gradeDist (processData t₁) = gradeDist (processData t₂) ∧
      gradeDist (filterDivision d (processData t₁))
        = gradeDist (filterDivision d (processData t₂)) ∧
      gradeDist (filterClass c (processData t₁))
        = gradeDist (filterClass c (processData t₂)) ∧
      comparisonMatrix (processData t₁) classes
        = comparisonMatrix (processData t₂) classes := by
  intro t₁ t₂ classes d c h
  have hp : (processData t₁).Perm (processData t₂) :=
    (processData_perm t₁).trans ((h.map tagRow).trans (processData_perm t₂).symm)
  exact ⟨gradeDist_perm hp, gradeDist_perm (hp.filter _), gradeDist_perm (hp.filter _),
    comparisonMatrix_perm hp classes⟩

/-- Witness for C7 at a concrete permutation of `tinyRaw`. -/
theorem C7_row_order_irrelevant_witness :
    tinyRaw.Perm tinyRawPerm ∧
    gradeDist (processData tinyRaw) = gradeDist (processData tinyRawPerm) :=
  ⟨by decide,
   (C7_row_order_irrelevant tinyRaw tinyRawPerm ["Class 1"] "Primary" "Class 1"
     (by decide)).1⟩

/-- C8: the two aggregations are pure: each leaves the frame it receives
unchanged, and invoking one again on the frame returned by the first call
yields the same output. -/
theorem C8_aggregations_pure :
    ∀ (df : List Row) (classes : List String),
      (createDistributionChart df).2 = df ∧
      (createStackedComparison df classes).2 = df ∧
      (createDistributionChart ((createDistributionChart df).2)).1
        = (createDistributionChart df).1 ∧
      (createStackedComparison ((createStackedComparison df classes).2) classes).1
        = (createStackedComparison df classes).1 :=
  fun _ _ => ⟨rfl, rfl, rfl, rfl⟩

/-- C9: when every input grade is in the fixed enumeration, every record
produced by `process_data` is one of the input rows tagged with its
grade's rank in `GRADE_ORDER`, and that rank is present; the rank table
is `{A*:0, A:1, B:2, C:3, D:4, E:5, U:6}`. -/
theorem C9_loader_tags_grade_rank :
    ∀ t : List RawRow, (∀ r ∈ t, r.grade ∈ GRADE_ORDER) →
      (∀ p ∈ processData t, ∃ r ∈ t,
          p = tagRow r ∧ p.grade = GRADE_ORDER.indexOf? r.grade ∧
          p.grade.isSome = true) ∧
      (gradeCode "A*" = some 0 ∧ gradeCode "A" = some 1 ∧ gradeCode "B" = some 2 ∧
       gradeCode "C" = some 3 ∧ gradeCode "D" = some 4 ∧ gradeCode "E" = some 5 ∧
       gradeCode "U" = some 6) := by
  intro t h
  constructor
  · intro p hp
    have hp2 : p ∈ t.map tagRow := (processData_perm t).mem_iff.mp hp
    rcases List.mem_map.mp hp2 with ⟨r, hr, hpr⟩
    refine ⟨r, hr, hpr.symm, ?_, ?_⟩
    · rw [← hpr]
      rfl
    · rw [← hpr]
      exact gradeCode_isSome (h r hr)
  · decide

/-- Witness for C9 at the concrete raw table `tinyRaw`, all of whose
grades are in the enumeration. -/
theorem C9_loader_tags_grade_rank_witness :
    (∀ r ∈ tinyRaw, r.grade ∈ GRADE_ORDER) ∧ gradeCode "A*" = some 0 :=
  ⟨by decide, (C9_loader_tags_grade_rank tinyRaw (by decide)).2.1⟩

/-- C10: a row whose grade is outside the fixed enumeration contributes
0 to every distribution entry and every comparison-matrix cell, yet its
full count still enters the total-students sum and the pass-rate
numerator. -/
theorem C10_unknown_grade_skews_totals :
    ∀ (x : RawRow) (t : List RawRow) (classes : List String),
      gradeCode x.grade = none →
      gradeDist (processData (x :: t)) = gradeDist (processData t) ∧
      comparisonMatrix (processData (x :: t)) classes
        = comparisonMatrix (processData t) classes ∧
      totalStudents (processData (x :: t)) = x.count + totalStudents (processData t) ∧
      passCount (processData (x :: t)) = x.count + passCount (processData t) := by
  intro x t classes h
  have hg : (tagRow x).grade = none := h
  have hp := processData_cons_perm x t
  refine ⟨?_, ?_, ?_, ?_⟩
  · rw [gradeDist_perm hp, gradeDist_cons_none hg]
  · rw [comparisonMatrix_perm hp classes, comparisonMatrix_cons_none hg]
  · rw [totalStudents_perm hp, totalStudents_cons]
    rfl
  · rw [passCount_perm hp, passCount_cons_none hg]
    rfl

/-- Witness for C10 at the concrete row with grade `F`. -/
theorem C10_unknown_grade_skews_totals_witness :
    gradeCode rowGradeF.grade = none ∧
    totalStudents (processData [rowGradeF])
      = rowGradeF.count + totalStudents (processData []) :=
  ⟨by decide,
   (C10_unknown_grade_skews_totals rowGradeF [] ["Class 1"] (by decide)).2.2.1⟩

end SchoolDash
